import Mathlib

/-!
Shallow embedding of the problem lifecycle of FabianKramm/kube-problem.

The embedding follows `pkg/runner/runner.go`, `pkg/runner/nodes.go` and
`pkg/runner/namespace.go`. Go's mutable map `Runner.problems` becomes an
association list threaded through the functions; pointer mutation of a
record becomes re-insertion under its key. Times (`time.Time`,
`time.Duration`) are integers counting nanoseconds, as in Go's internal
representation. Slack sends always succeed and are collected as a list of
message strings; `getGreeting()` (randomized in the source) is passed in
as an explicit `greeting` argument, since no lifecycle decision depends on
its value.
-/

namespace KubeProblem

/-- The `problemType` string constants of runner.go, as a closed enumeration. -/
inductive ProblemType where
  | nodeCondition
  | nodeResourcePressure
  | podStatus
  | podRestarts
  | podPending
deriving DecidableEq

/-- The underlying string of each `problemType` constant in runner.go. -/
def problemTypeString : ProblemType → String
  | ProblemType.nodeCondition => "NodeCondition"
  | ProblemType.nodeResourcePressure => "NodeResourcePressure"
  | ProblemType.podStatus => "PodStatus"
  | ProblemType.podRestarts => "PodRestarts"
  | ProblemType.podPending => "PodPending"

/-- The `resourceKindPod` constant of runner.go. (`problemDesc.kind` is a plain
string in the source: node records copy `node.Kind` into it, pod records use
this constant.) -/
def resourceKindPod : String := "Pod"

/-- The `problemDesc` struct of runner.go. Counters are mathematical integers
(Go `int` overflow is unreachable at these magnitudes); `occured` is a
timestamp in nanoseconds. Where the source builds a `problemDesc` literal, the
omitted Go fields are zero-valued: counters 0, `reported` false. -/
structure ProblemDesc where
  problemType : ProblemType
  kind : String
  name : String
  «namespace» : String
  id : String
  message : String
  resolvedCounter : Int
  occuredCounter : Int
  reported : Bool
  occured : Int
deriving DecidableEq

/-- The `Runner.problems` map, as an association list from dedup key to record. -/
abbrev Registry := List (String × ProblemDesc)

/-- Map read `r.problems[key]` (first entry with the key, `none` when absent). -/
def lookupProblem : Registry → String → Option ProblemDesc
  | [], _ => none
  | (k, v) :: rest, key => if k = key then some v else lookupProblem rest key

/-- Map write `r.problems[key] = v` (replace in place, else append). -/
def insertProblem : Registry → String → ProblemDesc → Registry
  | [], key, v => [(key, v)]
  | (k, w) :: rest, key, v =>
      if k = key then (key, v) :: rest else (k, w) :: insertProblem rest key v

/-- Map delete `delete(r.problems, key)`. -/
def eraseProblem : Registry → String → Registry
  | [], _ => []
  | (k, w) :: rest, key => if k = key then rest else (k, w) :: eraseProblem rest key

/-- Nanoseconds per second (`time.Second`). -/
def nsPerSecond : Int := 1000000000

/-- One hour in nanoseconds (`time.Hour`). -/
def hourNs : Int := 3600 * nsPerSecond

/-- The staleness window `time.Minute*30` used by the cleanup loop in `Start`. -/
def staleWindowNs : Int := 30 * 60 * nsPerSecond

/-- Report text built by `sendReportMessage` (with and without a namespace). -/
def reportMessageText (greeting : String) (p : ProblemDesc) : String :=
  if p.«namespace» ≠ "" then
    greeting ++ " there seems to be a problem with " ++ p.kind ++ " '" ++ p.name ++
      "' in namespace '" ++ p.«namespace» ++ "': " ++ p.message
  else
    greeting ++ " there seems to be a problem with " ++ p.kind ++ " '" ++ p.name ++
      "': " ++ p.message

/-- Resolve text built by `sendResolveMessage`. -/
def resolveMessageText (greeting : String) (p : ProblemDesc) : String :=
  greeting ++ " do you remember the problem with " ++ p.kind ++ " '" ++ p.name ++
    "'? Good news, seems like this is not a problem anymore :tada:"

/-- Embedding of `Runner.sendReportMessage`. In the source it receives the
pointer `r.problems[pid]`; here the aliasing is made explicit by looking the
record up and re-inserting the mutated copy. A `reported` record produces no
message and no state change; otherwise `reported` is set and one message is
sent. (The `none` case of the lookup is unreachable from `reportProblem`.) -/
def sendReportMessage (problems : Registry) (greeting : String) (pid : String) :
    Registry × List String :=
  match lookupProblem problems pid with
  | none => (problems, [])
  | some p =>
    if p.reported then (problems, [])
    else
      (insertProblem problems pid { p with reported := true },
       [reportMessageText greeting { p with reported := true }])

/-- Embedding of `Runner.reportProblem`: store the incoming record if its key
is absent, increment the stored record's occurrence counter, then dispatch on
the problem type (with the per-type report thresholds of runner.go) to
`sendReportMessage`. Note the source never touches `resolvedCounter` or
`occured` here. -/
def reportProblem (problems : Registry) (greeting : String) (problem : ProblemDesc) :
    Registry × List String :=
  let problems1 :=
    if (lookupProblem problems problem.id).isNone then
      insertProblem problems problem.id problem
    else problems
  match lookupProblem problems1 problem.id with
  | none => (problems1, [])
  | some rec0 =>
    let stored := { rec0 with occuredCounter := rec0.occuredCounter + 1 }
    let problems2 := insertProblem problems1 problem.id stored
    if stored.problemType = ProblemType.nodeCondition then
      sendReportMessage problems2 greeting problem.id
    else if stored.problemType = ProblemType.nodeResourcePressure ∧ 10 ≤ stored.occuredCounter then
      sendReportMessage problems2 greeting problem.id
    else if stored.problemType = ProblemType.podStatus then
      sendReportMessage problems2 greeting problem.id
    else if stored.problemType = ProblemType.podPending ∧ 30 ≤ stored.occuredCounter then
      sendReportMessage problems2 greeting problem.id
    else if stored.problemType = ProblemType.podRestarts then
      sendReportMessage problems2 greeting problem.id
    else
      (problems2, [])

/-- Embedding of `Runner.resolveProblem`. The source immediately re-fetches the
record by its id (`problem = r.problems[problem.id]`); a missing entry would be
a nil-pointer dereference, modelled as `none`. The resolution counter is
incremented in place; then the per-type resolve thresholds decide whether the
record is deleted and, only if it was reported, a resolve message sent. There
is no branch for `problemTypePodRestarts` in the source, so such records fall
through unchanged apart from the counter increment. -/
def resolveProblem (problems : Registry) (greeting : String) (pid : String) :
    Option (Registry × List String) :=
  match lookupProblem problems pid with
  | none => none
  | some p0 =>
    let p := { p0 with resolvedCounter := p0.resolvedCounter + 1 }
    let problems1 := insertProblem problems pid p
    if p.problemType = ProblemType.nodeCondition then
      some (eraseProblem problems1 pid,
            if p.reported then [resolveMessageText greeting p] else [])
    else if p.problemType = ProblemType.nodeResourcePressure ∧ 5 ≤ p.resolvedCounter then
      some (eraseProblem problems1 pid,
            if p.reported then [resolveMessageText greeting p] else [])
    else if p.problemType = ProblemType.podStatus ∧ 10 ≤ p.resolvedCounter then
      some (eraseProblem problems1 pid,
            if p.reported then [resolveMessageText greeting p] else [])
    else if p.problemType = ProblemType.podPending ∧ 10 ≤ p.resolvedCounter then
      some (eraseProblem problems1 pid,
            if p.reported then [resolveMessageText greeting p] else [])
    else
      some (problems1, [])

/-- The stale-record sweep at the bottom of `Runner.Start`: delete every record
with `time.Since(problem.occured) > time.Minute*30`. Go's map iteration order
does not matter here since deletion is pointwise. -/
def cleanupProblems (problems : Registry) (now : Int) : Registry :=
  problems.filter (fun kv => decide (now - kv.2.occured ≤ staleWindowNs))

/-- One entry of `node.Status.Conditions` (`v1.NodeCondition`): the fields read
by `isNodeProblem`. Statuses are the strings "True"/"False"/"Unknown". -/
structure NodeConditionStatus where
  type : String
  status : String
  message : String
deriving DecidableEq

/-- The fields of a `v1.Node` read by nodes.go: `node.Kind`, `node.Name`,
`node.Status.Conditions`, and capacity milli-values
(`node.Status.Capacity.Cpu().MilliValue()`, `...Memory().MilliValue()`). -/
structure Node where
  kind : String
  name : String
  conditions : List NodeConditionStatus
  capacityCpuMilli : Int
  capacityMemMilli : Int
deriving DecidableEq

/-- The fields of one `metricsapi.NodeMetrics` entry read by nodes.go:
`Usage.Cpu().MilliValue()` and `Usage.Memory().MilliValue()`. -/
structure NodeMetricsSample where
  cpuUsedMilli : Int
  memUsedMilli : Int
deriving DecidableEq

/-- Condition scan of `isNodeProblem` (nodes.go): first condition that is
either non-Ready with status ≠ "False", or Ready with status ≠ "True", yields
a `NodeCondition` descriptor whose dedup id is the full message text. -/
def isNodeProblemAux (now : Int) (node : Node) :
    List NodeConditionStatus → Option ProblemDesc
  | [] => none
  | c :: rest =>
    if c.type ≠ "Ready" ∧ c.status ≠ "False" then
      let msg := "Node " ++ node.name ++ " has condition (" ++ c.type ++ "): " ++ c.message
      some { problemType := ProblemType.nodeCondition, kind := node.kind, name := node.name,
             «namespace» := "", id := msg, message := msg,
             resolvedCounter := 0, occuredCounter := 0, reported := false, occured := now }
    else if c.type = "Ready" ∧ c.status ≠ "True" then
      let msg := "Node " ++ node.name ++ " has ready status '" ++ c.status ++ "': " ++ c.message
      some { problemType := ProblemType.nodeCondition, kind := node.kind, name := node.name,
             «namespace» := "", id := msg, message := msg,
             resolvedCounter := 0, occuredCounter := 0, reported := false, occured := now }
    else
      isNodeProblemAux now node rest

/-- Embedding of `isNodeProblem` (its `error` result is always nil in the
source and is dropped). -/
def isNodeProblem (now : Int) (node : Node) : Option ProblemDesc :=
  isNodeProblemAux now node node.conditions

/-- The missing-metrics `NodeResourcePressure` descriptor built in
`doWatchNodes` when metrics are available but the node has no usage sample. -/
def missingMetricsDesc (now : Int) (node : Node) : ProblemDesc :=
  let msg := "Metrics for node " ++ node.name ++
    " cannot be retrieved. This could mean the node crashed or is under heavy load"
  { problemType := ProblemType.nodeResourcePressure, kind := node.kind, name := node.name,
    «namespace» := "", id := msg, message := msg,
    resolvedCounter := 0, occuredCounter := 0, reported := false, occured := now }

/-- The cpu-saturation `NodeResourcePressure` descriptor of `doWatchNodes`. -/
def cpuPressureDesc (now : Int) (node : Node) : ProblemDesc :=
  let msg := "Node " ++ node.name ++
    " has constantly around 100% cpu usage, this could slow down workloads running on the node"
  { problemType := ProblemType.nodeResourcePressure, kind := node.kind, name := node.name,
    «namespace» := "", id := msg, message := msg,
    resolvedCounter := 0, occuredCounter := 0, reported := false, occured := now }

/-- The memory-saturation `NodeResourcePressure` descriptor of `doWatchNodes`. -/
def memPressureDesc (now : Int) (node : Node) : ProblemDesc :=
  let msg := "Node " ++ node.name ++
    " has constantly around 100% memory usage, this could slow down workloads running on the node"
  { problemType := ProblemType.nodeResourcePressure, kind := node.kind, name := node.name,
    «namespace» := "", id := msg, message := msg,
    resolvedCounter := 0, occuredCounter := 0, reported := false, occured := now }

/-- The ratio `float64(cpuUsed) / float64(cpuAvail)` of `doWatchNodes`,
modelled over the rationals (the source uses float64; no claim probes the
rounding at the 0.95 boundary, and capacities are positive in practice, so the
ratios coincide on everything proved here). -/
def cpuUsageRatio (node : Node) (m : NodeMetricsSample) : ℚ :=
  (m.cpuUsedMilli : ℚ) / (node.capacityCpuMilli : ℚ)

/-- The ratio `float64(memUsed) / float64(memAvail)` of `doWatchNodes`. -/
def memUsageRatio (node : Node) (m : NodeMetricsSample) : ℚ :=
  (m.memUsedMilli : ℚ) / (node.capacityMemMilli : ℚ)

/-- The final value of the local variable `problem` for one node in the loop
body of `doWatchNodes`: the condition-scan result of `isNodeProblem`, possibly
overwritten by the missing-metrics descriptor (when metrics are available but
the node's sample is absent) or by a saturation descriptor (cpu checked before
memory). The branch structure is exactly the source's if/else-if chain on
`nodeMetricsAvailable` and `nodeMetricsMap[node.Name]`. -/
def classifyNode (now : Int) (metricsAvailable : Bool) (sample : Option NodeMetricsSample)
    (node : Node) : Option ProblemDesc :=
  let problem := isNodeProblem now node
  match metricsAvailable, sample with
  | true, none => some (missingMetricsDesc now node)
  | true, some m =>
    if (95 : ℚ) / 100 ≤ cpuUsageRatio node m then some (cpuPressureDesc now node)
    else if (95 : ℚ) / 100 ≤ memUsageRatio node m then some (memPressureDesc now node)
    else problem
  | false, _ => problem

/-- Resolve every record of a snapshot in order (`for _, problem := range
r.problems { ... r.resolveProblem(problem) ... }`). Go's map iteration order is
unspecified; list order stands in for it, which only permutes the messages of a
single step and is irrelevant to every claim below. -/
def resolveAll (greeting : String) : Registry → List ProblemDesc →
    Option (Registry × List String)
  | problems, [] => some (problems, [])
  | problems, p :: rest =>
    match resolveProblem problems greeting p.id with
    | none => none
    | some (problems2, msgs) =>
      match resolveAll greeting problems2 rest with
      | none => none
      | some (problemsF, msgsF) => some (problemsF, msgs ++ msgsF)

/-- The records matched by the resolve loop of `doWatchNodes`:
`problem.kind == node.Kind && problem.name == node.Name`. -/
def matchingNodeRecords (problems : Registry) (node : Node) : List ProblemDesc :=
  (problems.filter (fun kv => kv.2.kind == node.kind && kv.2.name == node.name)).map Prod.snd

/-- The body of the per-node loop of `doWatchNodes`. Faithful to the source's
nesting: the `// Handle problem reporting or resolving` block sits INSIDE the
`nodeMetricsAvailable && nodeMetricsMap[node.Name] != nil` branch, so when
metrics are unavailable, or the node's sample is absent, neither
`reportProblem` nor `resolveProblem` is ever invoked — the descriptor computed
by `isNodeProblem` (and, in the absent-sample branch, the freshly assigned
missing-metrics descriptor) is discarded. -/
def watchNodeStep (problems : Registry) (greeting : String) (now : Int)
    (metricsAvailable : Bool) (sample : Option NodeMetricsSample) (node : Node) :
    Option (Registry × List String) :=
  let problem := isNodeProblem now node
  match metricsAvailable, sample with
  | true, none =>
    -- problem = &problemDesc{ ... missing metrics ... } is assigned in the
    -- source here, but the handling block below is out of reach of this branch
    some (problems, [])
  | true, some m =>
    let problem2 :=
      if (95 : ℚ) / 100 ≤ cpuUsageRatio node m then some (cpuPressureDesc now node)
      else if (95 : ℚ) / 100 ≤ memUsageRatio node m then some (memPressureDesc now node)
      else problem
    match problem2 with
    | some p => some (reportProblem problems greeting p)
    | none => resolveAll greeting problems (matchingNodeRecords problems node)
  | false, _ => some (problems, [])

/-- The `Waiting` part of a `v1.ContainerState`. -/
structure ContainerStateWaiting where
  reason : String
deriving DecidableEq

/-- The `Terminated` part of a `v1.ContainerState`; `finishedAt` is the
`FinishedAt.Time` timestamp in nanoseconds. -/
structure ContainerStateTerminated where
  exitCode : Int
  signal : Int
  reason : String
  finishedAt : Int
deriving DecidableEq

/-- A `v1.ContainerState`: at most one of the three sub-states is set;
`running` models `Running != nil`. -/
structure ContainerState where
  waiting : Option ContainerStateWaiting
  running : Bool
  terminated : Option ContainerStateTerminated
deriving DecidableEq

/-- The fields of a `v1.ContainerStatus` read by namespace.go. -/
structure ContainerStatus where
  ready : Bool
  state : ContainerState
  lastTerminationState : ContainerState
deriving DecidableEq

/-- The fields of a `v1.Pod` read by namespace.go: name, namespace, status
phase and reason, container and init-container statuses, the length of
`pod.Spec.InitContainers`, and the deletion timestamp. -/
structure Pod where
  name : String
  «namespace» : String
  phase : String
  reason : String
  initContainerStatuses : List ContainerStatus
  containerStatuses : List ContainerStatus
  specInitContainers : Nat
  deletionTimestamp : Option Int
deriving DecidableEq

/-- `node.NodeUnreachablePodReason` from k8s.io/kubernetes/pkg/util/node. -/
def NodeUnreachablePodReason : String := "NodeLost"

/-- The init-container loop of `GetPodStatus`: skip init containers that
terminated with exit code 0; the first other container decides the `Init:*`
reason (terminated signal / exit code / reason, then a non-"PodInitializing"
waiting reason, then index progress) and the loop breaks. Returns `none` when
every init container exited 0 (`initializing` stays false). -/
def initContainerReason (specInitContainers : Nat) :
    Nat → List ContainerStatus → Option String
  | _, [] => none
  | i, c :: rest =>
    match c.state.terminated with
    | some t =>
      if t.exitCode = 0 then initContainerReason specInitContainers (i + 1) rest
      else if t.reason = "" then
        if t.signal ≠ 0 then some ("Init:Signal:" ++ toString t.signal)
        else some ("Init:ExitCode:" ++ toString t.exitCode)
      else some ("Init:" ++ t.reason)
    | none =>
      match c.state.waiting with
      | some w =>
        if w.reason ≠ "" ∧ w.reason ≠ "PodInitializing" then some ("Init:" ++ w.reason)
        else some ("Init:" ++ toString i ++ "/" ++ toString specInitContainers)
      | none => some ("Init:" ++ toString i ++ "/" ++ toString specInitContainers)

/-- Terminated/running part of one iteration of the regular-container scan of
`GetPodStatus`, reached when the container has no non-empty waiting reason. -/
def containerScanRest (acc : String × Bool) (c : ContainerStatus) : String × Bool :=
  match c.state.terminated with
  | some t =>
    if t.reason ≠ "" then (t.reason, acc.2)
    else if t.signal ≠ 0 then ("Signal:" ++ toString t.signal, acc.2)
    else ("ExitCode:" ++ toString t.exitCode, acc.2)
  | none =>
    if c.ready ∧ c.state.running then (acc.1, true)
    else acc

/-- One iteration of the regular-container scan of `GetPodStatus`, threading
the pair (reason, hasRunning). -/
def containerScanStep (acc : String × Bool) (c : ContainerStatus) : String × Bool :=
  match c.state.waiting with
  | some w => if w.reason ≠ "" then (w.reason, acc.2) else containerScanRest acc c
  | none => containerScanRest acc c

/-- Embedding of `GetPodStatus` (namespace.go). The Go loop walks
`pod.Status.ContainerStatuses` from the last index down to 0 with last write
winning, which is a left fold over the reversed list. -/
def GetPodStatus (pod : Pod) : String :=
  let reason := if pod.reason ≠ "" then pod.reason else pod.phase
  let reason :=
    match initContainerReason pod.specInitContainers 0 pod.initContainerStatuses with
    | some r => r
    | none =>
      let scanned := pod.containerStatuses.reverse.foldl containerScanStep (reason, false)
      if scanned.1 = "Completed" ∧ scanned.2 then "Running" else scanned.1
  if pod.deletionTimestamp.isSome ∧ pod.reason = NodeUnreachablePodReason then "Unknown"
  else if pod.deletionTimestamp.isSome then "Terminating"
  else reason

/-- The `OkayStatus` set of namespace.go. -/
def OkayStatus : List String := ["Completed", "Running"]

/-- The `CriticalStatus` set of namespace.go. -/
def CriticalStatus : List String :=
  ["Error", "Unknown", "ImagePullBackOff", "CrashLoopBackOff", "RunContainerError",
   "ErrImagePull", "CreateContainerConfigError", "InvalidImageName", "Evicted"]

/-- The `PodStatus` descriptor built in `doWatchNamespace` for a critical pod
status; the dedup id is `pod.Name + "/" + pod.Namespace + "PodStatus"`. -/
def podStatusDesc (now : Int) (pod : Pod) (status : String) : ProblemDesc :=
  { problemType := ProblemType.podStatus,
    message := "Pod '" ++ pod.«namespace» ++ "/" ++ pod.name ++ "' has critical status '"
      ++ status ++ "'",
    id := pod.name ++ "/" ++ pod.«namespace» ++ problemTypeString ProblemType.podStatus,
    kind := resourceKindPod, name := pod.name, «namespace» := pod.«namespace»,
    resolvedCounter := 0, occuredCounter := 0, reported := false, occured := now }

/-- The `PodRestarts` descriptor built in `doWatchNamespace` for a container
whose last termination was within the hour with a non-zero exit code. -/
def podRestartsDesc (now : Int) (pod : Pod) (t : ContainerStateTerminated) : ProblemDesc :=
  { problemType := ProblemType.podRestarts,
    message := "Pod '" ++ pod.«namespace» ++ "/" ++ pod.name ++ "' has restarted "
      ++ toString ((now - t.finishedAt) / nsPerSecond) ++ " seconds ago due to '"
      ++ t.reason ++ "' with exit code '" ++ toString t.exitCode ++ "'",
    id := pod.name ++ "/" ++ pod.«namespace» ++ problemTypeString ProblemType.podRestarts,
    kind := resourceKindPod, name := pod.name, «namespace» := pod.«namespace»,
    resolvedCounter := 0, occuredCounter := 0, reported := false, occured := now }

/-- The `PodPending` descriptor built in `doWatchNamespace` for any status that
is neither critical nor okay. -/
def podPendingDesc (now : Int) (pod : Pod) (status : String) : ProblemDesc :=
  { problemType := ProblemType.podPending,
    message := "Pod '" ++ pod.«namespace» ++ "/" ++ pod.name ++ "' is not starting with status '"
      ++ status ++ "'",
    id := pod.name ++ "/" ++ pod.«namespace» ++ problemTypeString ProblemType.podPending,
    kind := resourceKindPod, name := pod.name, «namespace» := pod.«namespace»,
    resolvedCounter := 0, occuredCounter := 0, reported := false, occured := now }

/-- The restart scan of `doWatchNamespace`: first container status whose
`LastTerminationState.Terminated` is set, finished within `time.Hour`, and
exited non-zero (the loop breaks at the first hit). -/
def podRestartScan (now : Int) (pod : Pod) : List ContainerStatus → Option ProblemDesc
  | [] => none
  | c :: rest =>
    match c.lastTerminationState.terminated with
    | some t =>
      if now - t.finishedAt ≤ hourNs ∧ t.exitCode ≠ 0 then some (podRestartsDesc now pod t)
      else podRestartScan now pod rest
    | none => podRestartScan now pod rest

/-- The per-pod classification of `doWatchNamespace`: the final value of its
local variable `problem`. -/
def classifyPod (now : Int) (pod : Pod) : Option ProblemDesc :=
  let status := GetPodStatus pod
  if CriticalStatus.contains status then some (podStatusDesc now pod status)
  else if OkayStatus.contains status then podRestartScan now pod pod.containerStatuses
  else some (podPendingDesc now pod status)

/-- The records matched by the resolve loop of `doWatchNamespace`:
`problem.kind == resourceKindPod && problem.name == pod.Name &&
problem.namespace == pod.Namespace`. -/
def matchingPodRecords (problems : Registry) (pod : Pod) : List ProblemDesc :=
  (problems.filter (fun kv =>
    kv.2.kind == resourceKindPod && kv.2.name == pod.name
      && kv.2.«namespace» == pod.«namespace»)).map Prod.snd

/-- The body of the per-pod loop of `doWatchNamespace`: report the classified
problem, or resolve every live record for the pod's identity. -/
def watchPodStep (problems : Registry) (greeting : String) (now : Int) (pod : Pod) :
    Option (Registry × List String) :=
  match classifyPod now pod with
  | some p => some (reportProblem problems greeting p)
  | none => resolveAll greeting problems (matchingPodRecords problems pod)

/-- N consecutive poll cycles in which the same problem descriptor is produced
for its resource: the report path is invoked once per cycle, starting from the
registry `start`; emitted messages are accumulated in order. -/
def iterateReport (greeting : String) (p : ProblemDesc) (start : Registry) :
    Nat → Registry × List String
  | 0 => (start, [])
  | n + 1 =>
    let s := iterateReport greeting p start n
    let s2 := reportProblem s.1 greeting p
    (s2.1, s.2 ++ s2.2)

/-! Concrete fixtures used by the example-based theorems below. -/

def g0 : String := "Hello,"

def badCond : NodeConditionStatus :=
  { type := "MemoryPressure", status := "True", message := "node low on memory" }

def okReady : NodeConditionStatus := { type := "Ready", status := "True", message := "" }

/-- A node with a condition problem (MemoryPressure=True). -/
def condNode : Node :=
  { kind := "Node", name := "n1", conditions := [badCond, okReady],
    capacityCpuMilli := 1000, capacityMemMilli := 1000 }

/-- A node with no condition problem. -/
def healthyNode : Node :=
  { kind := "Node", name := "n2", conditions := [okReady],
    capacityCpuMilli := 1000, capacityMemMilli := 1000 }

def hiCpu : NodeMetricsSample := { cpuUsedMilli := 960, memUsedMilli := 100 }

def hiMem : NodeMetricsSample := { cpuUsedMilli := 100, memUsedMilli := 990 }

def loSample : NodeMetricsSample := { cpuUsedMilli := 100, memUsedMilli := 100 }

/-- A live NodeResourcePressure record for `healthyNode`, not yet resolved. -/
def nrpLiveRec : ProblemDesc :=
  { problemType := ProblemType.nodeResourcePressure, kind := "Node", name := "n2",
    «namespace» := "", id := "nrp-n2", message := "pressure on n2",
    resolvedCounter := 0, occuredCounter := 12, reported := true, occured := 0 }

def rLive : Registry := [("nrp-n2", nrpLiveRec)]

def keyC2 : String := "k2"

/-- A live record whose resolution counter has already advanced to 3. -/
def recC2 : ProblemDesc :=
  { problemType := ProblemType.podStatus, kind := "Pod", name := "p", «namespace» := "ns",
    id := keyC2, message := "critical", resolvedCounter := 3, occuredCounter := 5,
    reported := true, occured := 0 }

/-- The freshly classified descriptor re-detecting `recC2`'s problem. -/
def freshC2 : ProblemDesc :=
  { recC2 with resolvedCounter := 0, occuredCounter := 0, reported := false, occured := 700 }

def rC2 : Registry := [(keyC2, recC2)]

def keyC3 : String := "k3"

/-- A record created at time 0 (its `occured` field is the creation time). -/
def recC3 : ProblemDesc :=
  { problemType := ProblemType.podStatus, kind := "Pod", name := "q", «namespace» := "ns",
    id := keyC3, message := "critical", resolvedCounter := 0, occuredCounter := 5,
    reported := true, occured := 0 }

def rC3 : Registry := [(keyC3, recC3)]

/-- The time of the poll cycle just past the staleness window. -/
def nowC3 : Int := staleWindowNs + 1

/-- The descriptor re-detecting `recC3`'s problem in the cycle at `nowC3`. -/
def freshC3 : ProblemDesc :=
  { recC3 with occuredCounter := 0, reported := false, occured := nowC3 }

/-- C8 fixture: an init container terminated with exit code 1, empty reason,
signal 9. -/
def initSig9 : ContainerStatus :=
  { ready := false,
    state := { waiting := none, running := false,
               terminated := some { exitCode := 1, signal := 9, reason := "", finishedAt := 0 } },
    lastTerminationState := { waiting := none, running := false, terminated := none } }

def pod1c : Pod :=
  { name := "p1", «namespace» := "ns", phase := "Pending", reason := "",
    initContainerStatuses := [initSig9], containerStatuses := [],
    specInitContainers := 1, deletionTimestamp := none }

/-- An init container that exited 0. -/
def initOk : ContainerStatus :=
  { ready := false,
    state := { waiting := none, running := false,
               terminated := some { exitCode := 0, signal := 0, reason := "Completed", finishedAt := 0 } },
    lastTerminationState := { waiting := none, running := false, terminated := none } }

/-- A regular container terminated with reason "Completed". -/
def containerCompleted : ContainerStatus :=
  { ready := false,
    state := { waiting := none, running := false,
               terminated := some { exitCode := 0, signal := 0, reason := "Completed", finishedAt := 0 } },
    lastTerminationState := { waiting := none, running := false, terminated := none } }

/-- A regular container running and ready. -/
def containerRunning : ContainerStatus :=
  { ready := true,
    state := { waiting := none, running := true, terminated := none },
    lastTerminationState := { waiting := none, running := false, terminated := none } }

def pod2c : Pod :=
  { name := "p2", «namespace» := "ns", phase := "Running", reason := "",
    initContainerStatuses := [initOk], containerStatuses := [containerCompleted, containerRunning],
    specInitContainers := 1, deletionTimestamp := none }

def keyC4 : String := "p2/nsPodRestarts"

/-- A live, reported PodRestarts record for `pod2c`'s identity. -/
def recC4 : ProblemDesc :=
  { problemType := ProblemType.podRestarts, kind := resourceKindPod, name := "p2",
    «namespace» := "ns", id := keyC4, message := "restarted", resolvedCounter := 0,
    occuredCounter := 1, reported := true, occured := 0 }

def rC4 : Registry := [(keyC4, recC4)]

/-- A pod whose derived status is the critical status "Error". -/
def podCrit : Pod :=
  { name := "p3", «namespace» := "ns", phase := "Error", reason := "",
    initContainerStatuses := [], containerStatuses := [],
    specInitContainers := 0, deletionTimestamp := none }

/-- A fresh NodeResourcePressure descriptor as produced by the classifier
(zero-valued counters and flags). -/
def nrpFresh : ProblemDesc :=
  { problemType := ProblemType.nodeResourcePressure, kind := "Node", name := "n1",
    «namespace» := "", id := "nrp-n1", message := "pressure on n1",
    resolvedCounter := 0, occuredCounter := 0, reported := false, occured := 0 }

/-! Registry lemmas. -/

lemma lookupProblem_insert_self (m : Registry) (k : String) (v : ProblemDesc) :
    lookupProblem (insertProblem m k v) k = some v := by
  induction m with
  | nil => simp [insertProblem, lookupProblem]
  | cons kv rest ih =>
    obtain ⟨k', w⟩ := kv
    by_cases h : k' = k
    · simp [insertProblem, h, lookupProblem]
    · simp [insertProblem, h, lookupProblem, ih]

/-- What `sendReportMessage` does to the record under its key: the `reported`
flag may go from false to true; nothing else changes. -/
lemma sendReportMessage_lookup (problems : Registry) (g pid : String) (rec : ProblemDesc)
    (h : lookupProblem problems pid = some rec) :
    ∃ b : Bool, lookupProblem (sendReportMessage problems g pid).1 pid =
      some { rec with reported := rec.reported || b } := by
  unfold sendReportMessage
  simp only [h]
  by_cases hr : rec.reported = true
  · refine ⟨false, ?_⟩
    rw [if_pos hr, Bool.or_false]
    exact h
  · refine ⟨true, ?_⟩
    rw [if_neg hr, Bool.or_true]
    exact lookupProblem_insert_self problems pid { rec with reported := true }

/-- What one invocation of the report path does to an existing record: the
occurrence counter is incremented, the reported flag may be switched on, and
every other field is kept. -/
lemma reportProblem_lookup (problems : Registry) (g : String) (p rec : ProblemDesc)
    (h : lookupProblem problems p.id = some rec) :
    ∃ b : Bool, lookupProblem (reportProblem problems g p).1 p.id =
      some { rec with occuredCounter := rec.occuredCounter + 1, reported := rec.reported || b } := by
  unfold reportProblem
  simp only [h, Option.isNone_some, Bool.false_eq_true, if_false]
  have hself := lookupProblem_insert_self problems p.id
    { rec with occuredCounter := rec.occuredCounter + 1 }
  split_ifs with h1 h2 h3 h4 h5
  · exact sendReportMessage_lookup _ g p.id _ hself
  · exact sendReportMessage_lookup _ g p.id _ hself
  · exact sendReportMessage_lookup _ g p.id _ hself
  · exact sendReportMessage_lookup _ g p.id _ hself
  · exact sendReportMessage_lookup _ g p.id _ hself
  · exact ⟨false, by simpa [Bool.or_false] using hself⟩

/-- A send for an already-reported record is a no-op. -/
lemma sendReportMessage_reported (problems : Registry) (g pid : String) (rec : ProblemDesc)
    (h : lookupProblem problems pid = some rec) (hr : rec.reported = true) :
    sendReportMessage problems g pid = (problems, []) := by
  unfold sendReportMessage
  simp only [h]
  rw [if_pos hr]

/-- An already-reported record makes the whole report path a silent counter
increment: no message, `reported` stays true. -/
lemma reportProblem_reported_noop (problems : Registry) (g : String) (p rec : ProblemDesc)
    (h : lookupProblem problems p.id = some rec) (hr : rec.reported = true) :
    reportProblem problems g p =
      (insertProblem problems p.id { rec with occuredCounter := rec.occuredCounter + 1 }, []) := by
  unfold reportProblem
  simp only [h, Option.isNone_some, Bool.false_eq_true, if_false]
  have hsend := sendReportMessage_reported
    (insertProblem problems p.id { rec with occuredCounter := rec.occuredCounter + 1 }) g p.id
    { rec with occuredCounter := rec.occuredCounter + 1 }
    (lookupProblem_insert_self problems p.id
      { rec with occuredCounter := rec.occuredCounter + 1 }) hr
  split_ifs <;> simp [hsend]

/-- One report-path invocation on a single-record registry holding a
NodeResourcePressure record: the counter is incremented, and exactly when the
incremented counter reaches the threshold 10 on a not-yet-reported record, one
message is sent and the flag set. -/
lemma reportProblem_nrp_step (g : String) (p rec : ProblemDesc)
    (ht : rec.problemType = ProblemType.nodeResourcePressure) :
    reportProblem [(p.id, rec)] g p =
      if 10 ≤ rec.occuredCounter + 1 ∧ rec.reported = false then
        ([(p.id, { rec with occuredCounter := rec.occuredCounter + 1, reported := true })],
         [reportMessageText g { rec with occuredCounter := rec.occuredCounter + 1, reported := true }])
      else ([(p.id, { rec with occuredCounter := rec.occuredCounter + 1 })], []) := by
  have hlk : lookupProblem [(p.id, rec)] p.id = some rec := by simp [lookupProblem]
  unfold reportProblem
  simp only [hlk, Option.isNone_some, Bool.false_eq_true, if_false]
  have hins : insertProblem [(p.id, rec)] p.id { rec with occuredCounter := rec.occuredCounter + 1 } =
      [(p.id, { rec with occuredCounter := rec.occuredCounter + 1 })] := by simp [insertProblem]
  have hlk2 : lookupProblem [(p.id, { rec with occuredCounter := rec.occuredCounter + 1 })] p.id =
      some { rec with occuredCounter := rec.occuredCounter + 1 } := by simp [lookupProblem]
  rw [if_neg (by simp [ht]), hins]
  by_cases hc : (10 : Int) ≤ rec.occuredCounter + 1
  · rw [if_pos ⟨by simp [ht], hc⟩]
    unfold sendReportMessage
    simp only [hlk2]
    by_cases hrr : rec.reported = true
    · rw [if_pos hrr, if_neg (by simp [hrr])]
    · rw [if_neg hrr, if_pos ⟨hc, by simpa using hrr⟩]
      simp [insertProblem]
  · rw [if_neg (fun hand => hc hand.2), if_neg (by simp [ht]),
        if_neg (by simp [ht]), if_neg (by simp [ht]),
        if_neg (fun hand => hc hand.1)]

/-- The report path on an empty registry with a fresh NodeResourcePressure
descriptor: the record is created, its counter becomes 1, nothing is sent. -/
lemma reportProblem_nrp_fresh (g : String) (p : ProblemDesc)
    (ht : p.problemType = ProblemType.nodeResourcePressure)
    (h0 : p.occuredCounter = 0) :
    reportProblem [] g p = ([(p.id, { p with occuredCounter := p.occuredCounter + 1 })], []) := by
  unfold reportProblem
  have hlk : lookupProblem ([] : Registry) p.id = none := rfl
  have hins : insertProblem ([] : Registry) p.id p = [(p.id, p)] := rfl
  simp only [hlk, Option.isNone_none, if_true, hins]
  have hlk2 : lookupProblem [(p.id, p)] p.id = some p := by simp [lookupProblem]
  simp only [hlk2]
  rw [if_neg (by simp [ht]), if_neg (fun hand => by simp [h0] at hand),
      if_neg (by simp [ht]), if_neg (by simp [ht]), if_neg (by simp [ht])]
  simp [insertProblem]

/-- State after n+1 consecutive detection cycles of a fresh NodeResourcePressure
problem, starting from an empty registry: the record's occurrence counter is
n+1, the reported flag is set exactly from cycle 10 on, and the full message
log holds exactly one report message, present exactly from cycle 10 on. -/
lemma nrp_state (g : String) (p : ProblemDesc)
    (ht : p.problemType = ProblemType.nodeResourcePressure)
    (h0 : p.occuredCounter = 0) (hr : p.reported = false) (n : Nat) :
    iterateReport g p [] (n + 1) =
      ([(p.id, { p with occuredCounter := (n : Int) + 1, reported := decide (10 ≤ n + 1) })],
       if 10 ≤ n + 1 then
         [reportMessageText g { p with occuredCounter := (10 : Int), reported := true }]
       else []) := by
  induction n with
  | zero =>
    have h1 : iterateReport g p [] 1 =
        ((reportProblem [] g p).1, [] ++ (reportProblem [] g p).2) := rfl
    rw [h1, reportProblem_nrp_fresh g p ht h0]
    simp [h0, hr]
  | succ k ih =>
    have h1 : iterateReport g p [] (k + 1 + 1) =
        ((reportProblem (iterateReport g p [] (k + 1)).1 g p).1,
         (iterateReport g p [] (k + 1)).2 ++
           (reportProblem (iterateReport g p [] (k + 1)).1 g p).2) := rfl
    rw [h1, ih]
    dsimp only
    rw [reportProblem_nrp_step g p
      ({ p with occuredCounter := (k : Int) + 1, reported := decide (10 ≤ k + 1) })
      (by exact ht)]
    dsimp only
    by_cases hk : 10 ≤ k + 1 + 1
    · by_cases hk1 : 10 ≤ k + 1
      · -- already reported before this cycle: silent
        rw [if_neg (fun hand => absurd hk1 (of_decide_eq_false hand.2)),
            if_pos hk1, if_pos hk]
        simp [decide_eq_true hk1, decide_eq_true hk]
        all_goals omega
      · -- this is cycle 10: the one report message
        rw [if_pos ⟨by omega, decide_eq_false hk1⟩, if_neg hk1, if_pos hk]
        have h10 : ((k : Int) + 1) + 1 = 10 := by omega
        rw [h10]
        simp [decide_eq_true hk]
        all_goals omega
    · -- below the threshold: silent
      have hk1 : ¬ 10 ≤ k + 1 := by omega
      rw [if_neg (fun hand => by have h := hand.1; omega), if_neg hk1, if_neg hk]
      simp [decide_eq_false hk1, decide_eq_false hk]
      all_goals omega

/-- C1 (code bug witness): when the metrics backend is unavailable, the
per-node loop of doWatchNodes performs no handling at all: a node condition
problem detected by `isNodeProblem` is NOT fed to the report path (no record is
created, nothing is sent), and a healthy node's live records do NOT have their
resolution counters advanced; the same happens when metrics are available but
the node's sample is absent. -/
theorem C1_metrics_unavailable_skips_node_handling :
    (isNodeProblem 0 condNode).isSome = true ∧
    watchNodeStep [] g0 0 false none condNode = some ([], []) ∧
    watchNodeStep rLive g0 0 false none healthyNode = some (rLive, []) ∧
    watchNodeStep [] g0 0 true none condNode = some ([], []) :=
  ⟨rfl, rfl, rfl, rfl⟩

/-- C8: pod status derivation precedence — an init container terminated with
exit code 1, empty reason and signal 9 yields "Init:Signal:9"; a pod whose init
containers all exited 0, with one container terminated with reason "Completed"
and another running and ready, yields "Running", not "Completed". -/
theorem C8_pod_status_precedence :
    GetPodStatus pod1c = "Init:Signal:9" ∧ GetPodStatus pod2c = "Running" :=
  ⟨rfl, rfl⟩

/-- C2 (counterexample): re-detecting a live record's problem via the report
path does NOT reset its resolution counter to 0 — a record with resolution
counter 3 keeps it at 3 after re-detection. -/
theorem C2_counterexample :
    (lookupProblem (reportProblem rC2 g0 freshC2).1 keyC2).map ProblemDesc.resolvedCounter =
        some 3 ∧
    (lookupProblem (reportProblem rC2 g0 freshC2).1 keyC2).map ProblemDesc.resolvedCounter ≠
        some 0 :=
  ⟨rfl, by decide⟩

/-- C3 (counterexample): a record whose problem is re-detected in the current
cycle (its occurrence counter is bumped to 6 by the report path) is
nevertheless deleted by the staleness sweep, because the sweep measures age
from the record's creation timestamp, which re-detection never refreshes. -/
theorem C3_counterexample :
    (lookupProblem (reportProblem rC3 g0 freshC3).1 keyC3).map ProblemDesc.occuredCounter =
        some 6 ∧
    lookupProblem (cleanupProblems (reportProblem rC3 g0 freshC3).1 nowC3) keyC3 = none :=
  ⟨rfl, rfl⟩

/-- C4 (counterexample): a live, reported PodRestarts record whose pod is
observed with no problem descriptor is NOT deleted and no resolve message is
sent — its resolution counter just becomes 1 and the record stays. -/
theorem C4_counterexample :
    (watchPodStep rC4 g0 0 pod2c).map
        (fun s => ((lookupProblem s.1 keyC4).map ProblemDesc.resolvedCounter, s.2)) =
      some (some 1, []) :=
  rfl

/-- C5 (counterexample): a node with a condition problem does not necessarily
yield its NodeCondition descriptor: with metrics available, a saturated cpu
sample (or an absent sample) overwrites the condition problem with a
NodeResourcePressure descriptor; in particular the missing-metrics descriptor
is produced even though the node has a condition problem. -/
theorem C5_counterexample :
    (isNodeProblem 0 condNode).isSome = true ∧
    (classifyNode 0 true (some hiCpu) condNode).map ProblemDesc.problemType =
      some ProblemType.nodeResourcePressure ∧
    (classifyNode 0 true none condNode).map ProblemDesc.problemType =
      some ProblemType.nodeResourcePressure := by
  have hcpu : (95 : ℚ) / 100 ≤ cpuUsageRatio condNode hiCpu := by
    norm_num [cpuUsageRatio, condNode, hiCpu]
  refine ⟨rfl, ?_, rfl⟩
  simp [classifyNode, hcpu, cpuPressureDesc]

/-- C9 (counterexample): the dedup key of node descriptors is the message text,
not a function of (identity, kind): the cpu and memory saturation descriptors
for the same node have the same problem type, kind, name and namespace but
different ids, and reporting both yields two coexisting live records for the
same (identity, kind). -/
theorem C9_counterexample :
    classifyNode 0 true (some hiCpu) healthyNode = some (cpuPressureDesc 0 healthyNode) ∧
    classifyNode 0 true (some hiMem) healthyNode = some (memPressureDesc 0 healthyNode) ∧
    (cpuPressureDesc 0 healthyNode).problemType = (memPressureDesc 0 healthyNode).problemType ∧
    (cpuPressureDesc 0 healthyNode).kind = (memPressureDesc 0 healthyNode).kind ∧
    (cpuPressureDesc 0 healthyNode).name = (memPressureDesc 0 healthyNode).name ∧
    (cpuPressureDesc 0 healthyNode).«namespace» = (memPressureDesc 0 healthyNode).«namespace» ∧
    (cpuPressureDesc 0 healthyNode).id ≠ (memPressureDesc 0 healthyNode).id ∧
    ((reportProblem (reportProblem [] g0 (cpuPressureDesc 0 healthyNode)).1 g0
        (memPressureDesc 0 healthyNode)).1).length = 2 := by
  have h1 : (95 : ℚ) / 100 ≤ cpuUsageRatio healthyNode hiCpu := by
    norm_num [cpuUsageRatio, healthyNode, hiCpu]
  have h2 : ¬ (95 : ℚ) / 100 ≤ cpuUsageRatio healthyNode hiMem := by
    norm_num [cpuUsageRatio, healthyNode, hiMem]
  have h3 : (95 : ℚ) / 100 ≤ memUsageRatio healthyNode hiMem := by
    norm_num [memUsageRatio, healthyNode, hiMem]
  refine ⟨?_, ?_, rfl, rfl, rfl, rfl, by decide, rfl⟩
  · simp [classifyNode, h1]
  · simp [classifyNode, h2, h3]

/-- The dedup id of every descriptor produced by the pod restart scan is
(name, namespace, problem kind) only. -/
lemma podRestartScan_id (now : Int) (pod : Pod) :
    ∀ (l : List ContainerStatus) (d : ProblemDesc), podRestartScan now pod l = some d →
      d.id = pod.name ++ "/" ++ pod.«namespace» ++ problemTypeString d.problemType := by
  intro l
  induction l with
  | nil => intro d hd; simp [podRestartScan] at hd
  | cons c rest ih =>
    intro d hd
    unfold podRestartScan at hd
    cases hterm : c.lastTerminationState.terminated with
    | none => rw [hterm] at hd; exact ih d hd
    | some t =>
      rw [hterm] at hd
      dsimp only at hd
      by_cases hcond : now - t.finishedAt ≤ hourNs ∧ t.exitCode ≠ 0
      · rw [if_pos hcond] at hd
        cases hd
        rfl
      · rw [if_neg hcond] at hd; exact ih d hd

/-- The dedup id of every descriptor produced by the pod classifier is a
function of pod name, namespace and problem kind alone. -/
lemma classifyPod_id (now : Int) (pod : Pod) (d : ProblemDesc)
    (h : classifyPod now pod = some d) :
    d.id = pod.name ++ "/" ++ pod.«namespace» ++ problemTypeString d.problemType := by
  unfold classifyPod at h
  by_cases hc : CriticalStatus.contains (GetPodStatus pod) = true
  · rw [if_pos hc] at h; cases h; rfl
  · rw [if_neg hc] at h
    by_cases ho : OkayStatus.contains (GetPodStatus pod) = true
    · rw [if_pos ho] at h
      exact podRestartScan_id now pod pod.containerStatuses d h
    · rw [if_neg ho] at h; cases h; rfl

/-- The dedup id of every node condition descriptor is its message text. -/
lemma isNodeProblemAux_id (now : Int) (node : Node) :
    ∀ (l : List NodeConditionStatus) (d : ProblemDesc), isNodeProblemAux now node l = some d →
      d.id = d.message := by
  intro l
  induction l with
  | nil => intro d hd; simp [isNodeProblemAux] at hd
  | cons c rest ih =>
    intro d hd
    unfold isNodeProblemAux at hd
    by_cases h1 : c.type ≠ "Ready" ∧ c.status ≠ "False"
    · rw [if_pos h1] at hd; cases hd; rfl
    · rw [if_neg h1] at hd
      by_cases h2 : c.type = "Ready" ∧ c.status ≠ "True"
      · rw [if_pos h2] at hd; cases hd; rfl
      · rw [if_neg h2] at hd; exact ih d hd

/-- The dedup id of every descriptor produced by the node classifier is its
full message text. -/
lemma classifyNode_id (now : Int) (mA : Bool) (s : Option NodeMetricsSample) (node : Node)
    (d : ProblemDesc) (h : classifyNode now mA s node = some d) : d.id = d.message := by
  unfold classifyNode at h
  cases mA with
  | false =>
    exact isNodeProblemAux_id now node node.conditions d h
  | true =>
    cases s with
    | none =>
      have hd := Option.some.inj h
      rw [← hd]
      exact rfl
    | some m =>
      dsimp only at h
      by_cases h1 : (95 : ℚ) / 100 ≤ cpuUsageRatio node m
      · rw [if_pos h1] at h
        have hd := Option.some.inj h
        rw [← hd]
        exact rfl
      · rw [if_neg h1] at h
        by_cases h2 : (95 : ℚ) / 100 ≤ memUsageRatio node m
        · rw [if_pos h2] at h
          have hd := Option.some.inj h
          rw [← hd]
          exact rfl
        · rw [if_neg h2] at h
          exact isNodeProblemAux_id now node node.conditions d h

/-- C2 (amended): when the report path is invoked for a live record's dedup
key, the occurrence counter is incremented but the resolution counter KEEPS its
value (it is not reset to 0), so the resolve threshold can be reached by
cumulative, not necessarily consecutive, non-detection cycles. -/
theorem C2_redetection_keeps_resolution_counter (problems : Registry) (g : String)
    (p rec : ProblemDesc) (h : lookupProblem problems p.id = some rec) :
    ∃ rec', lookupProblem (reportProblem problems g p).1 p.id = some rec' ∧
      rec'.resolvedCounter = rec.resolvedCounter ∧
      rec'.occuredCounter = rec.occuredCounter + 1 := by
  obtain ⟨b, hb⟩ := reportProblem_lookup problems g p rec h
  exact ⟨_, hb, rfl, rfl⟩

/-- C2 witness: the amended statement applied at a concrete registry. -/
theorem C2_witness :
    ∃ rec', lookupProblem (reportProblem rC2 g0 freshC2).1 freshC2.id = some rec' ∧
      rec'.resolvedCounter = recC2.resolvedCounter ∧
      rec'.occuredCounter = recC2.occuredCounter + 1 :=
  C2_redetection_keeps_resolution_counter rC2 g0 freshC2 recC2 rfl

/-- C3 (amended): the report path never refreshes a live record's `occured`
timestamp (it keeps the creation time), and the staleness sweep keeps exactly
the records whose creation time is within the 30-minute window of `now` — so a
record re-detected every cycle is still evicted 30 minutes after creation. -/
theorem C3_sweep_measures_creation_age :
    (∀ (problems : Registry) (g : String) (p rec : ProblemDesc),
      lookupProblem problems p.id = some rec →
      ∃ rec', lookupProblem (reportProblem problems g p).1 p.id = some rec' ∧
        rec'.occured = rec.occured) ∧
    (∀ (problems : Registry) (now : Int) (k : String) (rec : ProblemDesc),
      (k, rec) ∈ cleanupProblems problems now ↔
        ((k, rec) ∈ problems ∧ now - rec.occured ≤ staleWindowNs)) := by
  constructor
  · intro problems g p rec h
    obtain ⟨b, hb⟩ := reportProblem_lookup problems g p rec h
    exact ⟨_, hb, rfl⟩
  · intro problems now k rec
    simp [cleanupProblems, List.mem_filter]

/-- C3 witness: the amended statement applied at a concrete registry. -/
theorem C3_witness :
    (∃ rec', lookupProblem (reportProblem rC3 g0 freshC3).1 freshC3.id = some rec' ∧
      rec'.occured = recC3.occured) ∧
    ((keyC3, recC3) ∈ cleanupProblems rC3 0 ↔
      ((keyC3, recC3) ∈ rC3 ∧ (0 : Int) - recC3.occured ≤ staleWindowNs)) :=
  ⟨C3_sweep_measures_creation_age.1 rC3 g0 freshC3 recC3 rfl,
   C3_sweep_measures_creation_age.2 rC3 0 keyC3 recC3⟩

/-- C4 (amended): the resolve path has no case for PodRestarts records: a
non-detection cycle only increments the record's resolution counter; the
record is never deleted here and no resolve message is ever sent for it. -/
theorem C4_podrestarts_never_resolved (problems : Registry) (g pid : String)
    (rec : ProblemDesc) (h : lookupProblem problems pid = some rec)
    (ht : rec.problemType = ProblemType.podRestarts) :
    resolveProblem problems g pid =
      some (insertProblem problems pid { rec with resolvedCounter := rec.resolvedCounter + 1 },
            []) := by
  unfold resolveProblem
  simp only [h]
  rw [if_neg (by simp [ht]), if_neg (by simp [ht]), if_neg (by simp [ht]),
      if_neg (by simp [ht])]

/-- C4 witness: the amended statement applied at a concrete registry. -/
theorem C4_witness :
    resolveProblem rC4 g0 keyC4 =
      some (insertProblem rC4 keyC4 { recC4 with resolvedCounter := recC4.resolvedCounter + 1 },
            []) :=
  C4_podrestarts_never_resolved rC4 g0 keyC4 recC4 rfl rfl

/-- C5 (amended): the node classification is last-match-wins, not
first-match-wins: the NodeCondition descriptor survives only when metrics are
unavailable, or when the node's sample is present with both usage ratios below
0.95; otherwise the missing-metrics or saturation NodeResourcePressure
descriptor overwrites it (cpu checked before memory). -/
theorem C5_pressure_overrides_condition (now : Int) (node : Node) (m : NodeMetricsSample) :
    classifyNode now false (some m) node = isNodeProblem now node ∧
    classifyNode now false none node = isNodeProblem now node ∧
    classifyNode now true none node = some (missingMetricsDesc now node) ∧
    ((95 : ℚ) / 100 ≤ cpuUsageRatio node m →
      classifyNode now true (some m) node = some (cpuPressureDesc now node)) ∧
    (¬ (95 : ℚ) / 100 ≤ cpuUsageRatio node m → (95 : ℚ) / 100 ≤ memUsageRatio node m →
      classifyNode now true (some m) node = some (memPressureDesc now node)) ∧
    (¬ (95 : ℚ) / 100 ≤ cpuUsageRatio node m → ¬ (95 : ℚ) / 100 ≤ memUsageRatio node m →
      classifyNode now true (some m) node = isNodeProblem now node) := by
  refine ⟨rfl, rfl, rfl, ?_, ?_, ?_⟩
  · intro h1
    simp [classifyNode, h1]
  · intro h1 h2
    simp [classifyNode, h1, h2]
  · intro h1 h2
    simp [classifyNode, h1, h2]

/-- C5 witness: the amended statement applied at a concrete node and samples. -/
theorem C5_witness :
    classifyNode 0 true (some hiCpu) condNode = some (cpuPressureDesc 0 condNode) ∧
    classifyNode 0 true (some hiMem) condNode = some (memPressureDesc 0 condNode) ∧
    classifyNode 0 true (some loSample) condNode = isNodeProblem 0 condNode :=
  ⟨(C5_pressure_overrides_condition 0 condNode hiCpu).2.2.2.1
      (by norm_num [cpuUsageRatio, condNode, hiCpu]),
   (C5_pressure_overrides_condition 0 condNode hiMem).2.2.2.2.1
      (by norm_num [cpuUsageRatio, condNode, hiMem])
      (by norm_num [memUsageRatio, condNode, hiMem]),
   (C5_pressure_overrides_condition 0 condNode loSample).2.2.2.2.2
      (by norm_num [cpuUsageRatio, condNode, loSample])
      (by norm_num [memUsageRatio, condNode, loSample])⟩

/-- C6: for a NodeResourcePressure problem detected in n consecutive cycles
starting from no existing record, the number of report messages sent in total
is 1 from cycle 10 on and 0 before, and the number sent during cycle n+1 alone
is 1 exactly when n+1 = 10: one report, on cycle 10, never earlier, never
repeated. -/
theorem C6_nrp_report_debounce (g : String) (p : ProblemDesc)
    (ht : p.problemType = ProblemType.nodeResourcePressure)
    (h0 : p.occuredCounter = 0) (hr : p.reported = false) (n : Nat) :
    ((iterateReport g p [] n).2.length = if 10 ≤ n then 1 else 0) ∧
    ((iterateReport g p [] (n + 1)).2.length - (iterateReport g p [] n).2.length =
      if n + 1 = 10 then 1 else 0) := by
  have hlen : ∀ m : Nat, (iterateReport g p [] m).2.length = if 10 ≤ m then 1 else 0 := by
    intro m
    match m with
    | 0 => simp [iterateReport]
    | Nat.succ k =>
      rw [nrp_state g p ht h0 hr k]
      by_cases hk : 10 ≤ k + 1
      · simp [hk]
      · simp [hk]
  refine ⟨hlen n, ?_⟩
  rw [hlen n, hlen (n + 1)]
  by_cases ha : 10 ≤ n <;> by_cases hb : 10 ≤ n + 1 <;> by_cases hc : n + 1 = 10 <;>
    simp [ha, hb, hc] <;> omega

/-- C6 witness: the debounce statement applied to a concrete fresh
NodeResourcePressure descriptor at cycle 10. -/
theorem C6_witness :
    ((iterateReport g0 nrpFresh [] 10).2.length = if 10 ≤ 10 then 1 else 0) ∧
    ((iterateReport g0 nrpFresh [] (10 + 1)).2.length -
        (iterateReport g0 nrpFresh [] 10).2.length = if 10 + 1 = 10 then 1 else 0) :=
  C6_nrp_report_debounce g0 nrpFresh rfl rfl rfl 10

/-- C7: once a record's reported flag is true, invoking the report path for it
any number of further times sends no message at all and leaves the flag true
(occurrence counters keep growing silently). -/
theorem C7_reporting_idempotent (problems : Registry) (g : String) (p rec : ProblemDesc)
    (h : lookupProblem problems p.id = some rec) (hr : rec.reported = true) (n : Nat) :
    (iterateReport g p problems n).2 = [] ∧
    ∃ rec', lookupProblem (iterateReport g p problems n).1 p.id = some rec' ∧
      rec'.reported = true := by
  induction n with
  | zero => exact ⟨rfl, rec, h, hr⟩
  | succ m ih =>
    obtain ⟨hmsg, rec', hlk', hrep'⟩ := ih
    have hstep := reportProblem_reported_noop (iterateReport g p problems m).1 g p rec' hlk' hrep'
    have h1 : iterateReport g p problems (m + 1) =
        ((reportProblem (iterateReport g p problems m).1 g p).1,
         (iterateReport g p problems m).2 ++
           (reportProblem (iterateReport g p problems m).1 g p).2) := rfl
    rw [h1, hstep]
    refine ⟨?_, { rec' with occuredCounter := rec'.occuredCounter + 1 }, ?_, hrep'⟩
    · rw [hmsg]; rfl
    · exact lookupProblem_insert_self _ _ _

/-- C7 witness: three further report-path invocations on an already-reported
record send nothing and keep the flag set. -/
theorem C7_witness :
    (iterateReport g0 freshC2 rC2 3).2 = [] ∧
    ∃ rec', lookupProblem (iterateReport g0 freshC2 rC2 3).1 freshC2.id = some rec' ∧
      rec'.reported = true :=
  C7_reporting_idempotent rC2 g0 freshC2 recC2 rfl rfl 3

/-- C9 (amended): pod descriptors' dedup keys are a stable function of (name,
namespace, problem kind) independent of the message; node descriptors' dedup
keys are their full message text (so distinct messages for the same identity
and kind yield distinct keys). -/
theorem C9_dedup_keys (mA : Bool) (s : Option NodeMetricsSample)
    (now : Int) (pod : Pod) (node : Node) (d e : ProblemDesc)
    (hp : classifyPod now pod = some d) (hn : classifyNode now mA s node = some e) :
    d.id = pod.name ++ "/" ++ pod.«namespace» ++ problemTypeString d.problemType ∧
    e.id = e.message :=
  ⟨classifyPod_id now pod d hp, classifyNode_id now mA s node e hn⟩

/-- C9 witness: the key characterization applied to a concrete pod and node. -/
theorem C9_witness :
    (podStatusDesc 0 podCrit (GetPodStatus podCrit)).id =
      podCrit.name ++ "/" ++ podCrit.«namespace» ++
        problemTypeString (podStatusDesc 0 podCrit (GetPodStatus podCrit)).problemType ∧
    (missingMetricsDesc 0 healthyNode).id = (missingMetricsDesc 0 healthyNode).message :=
  C9_dedup_keys true none 0 podCrit healthyNode
    (podStatusDesc 0 podCrit (GetPodStatus podCrit)) (missingMetricsDesc 0 healthyNode)
    rfl rfl

/-- C10: when the report path is invoked for a dedup key that already has a
live record, every stored field except the occurrence counter and the reported
flag is left unchanged — the freshly classified descriptor's message and
timestamp are discarded and the record keeps its creation-time values. -/
theorem C10_report_path_frame (problems : Registry) (g : String) (p rec : ProblemDesc)
    (h : lookupProblem problems p.id = some rec) :
    ∃ rec', lookupProblem (reportProblem problems g p).1 p.id = some rec' ∧
      rec'.problemType = rec.problemType ∧ rec'.kind = rec.kind ∧ rec'.name = rec.name ∧
      rec'.«namespace» = rec.«namespace» ∧ rec'.id = rec.id ∧ rec'.message = rec.message ∧
      rec'.occured = rec.occured ∧ rec'.resolvedCounter = rec.resolvedCounter ∧
      rec'.occuredCounter = rec.occuredCounter + 1 := by
  obtain ⟨b, hb⟩ := reportProblem_lookup problems g p rec h
  exact ⟨_, hb, rfl, rfl, rfl, rfl, rfl, rfl, rfl, rfl, rfl⟩

/-- C10 witness: the frame statement applied at a concrete registry whose
stored record differs from the fresh descriptor in message and timestamp. -/
theorem C10_witness :
    ∃ rec', lookupProblem (reportProblem rC3 g0 freshC3).1 freshC3.id = some rec' ∧
      rec'.problemType = recC3.problemType ∧ rec'.kind = recC3.kind ∧
      rec'.name = recC3.name ∧ rec'.«namespace» = recC3.«namespace» ∧
      rec'.id = recC3.id ∧ rec'.message = recC3.message ∧
      rec'.occured = recC3.occured ∧ rec'.resolvedCounter = recC3.resolvedCounter ∧
      rec'.occuredCounter = recC3.occuredCounter + 1 :=
  C10_report_path_frame rC3 g0 freshC3 recC3 rfl

end KubeProblem
